import Mathlib

/-!
Shallow embedding of the varesa/heartbeat monitoring service, translated from
the Rust sources:

* `heartbeat-core/src/model.rs` — `Slug`, `Monitor`, `MonitorStatus`
* `heartbeat-core/src/db.rs` — DynamoDB store operations (`upsert_monitor`,
  `update_alert_state`, `clear_alert_state`), modelled as pure transformers of
  an explicit store state
* `heartbeat-checker/src/alerts.rs` — notification formatting and MarkdownV2
  escaping
* `heartbeat-checker/src/telegram.rs` — `send_with_retry`
* `heartbeat-checker/src/checker.rs` — `check_monitors`, the check cycle

Machine integers (`i64`, `u64`, `u32`) are modelled as `Int`/`Nat`; the claims
under study never exercise the 64-bit overflow boundary, and places where the
Rust code saturates or casts are noted at the corresponding definition.
Network and database I/O is modelled by explicit state passing: the Telegram
sink becomes an oracle `String → Bool` (`true` = delivered) and the DynamoDB
alert-state columns become a function from slug to the pair of optional
attributes.
-/

namespace Heartbeat

-- ===========================================================================
-- model.rs: Monitor
-- ===========================================================================

/-- A heartbeat monitor row, field for field from `Monitor` in
`heartbeat-core/src/model.rs` (`u64`/`u32` as `Nat`, `i64` as `Int`). -/
structure Monitor where
  slug : String
  interval_secs : Nat
  last_ping : Int
  next_due : Int
  check_partition : String
  last_alerted_at : Option Int
  alert_count : Option Nat
  created_at : Int
  paused : Option Bool
  expires_at : Int
deriving Repr, DecidableEq

/-- Derived monitor status, from `MonitorStatus` in `model.rs`. -/
inductive MonitorStatus where
  | Ok
  | Overdue
  | Paused
deriving Repr, DecidableEq

/-- `MonitorStatus::derive` from `model.rs`:
`paused == Some(true)` wins, then `next_due < now`, else `Ok`. -/
def MonitorStatus.derive (monitor : Monitor) (now_epoch : Int) : MonitorStatus :=
  if monitor.paused = some true then .Paused
  else if monitor.next_due < now_epoch then .Overdue
  else .Ok

-- ===========================================================================
-- model.rs: Slug validation
-- ===========================================================================

/-- `MAX_SLUG_LENGTH` from `model.rs`. -/
def MAX_SLUG_LENGTH : Nat := 64

/-- Errors from `SlugError` in `model.rs`. -/
inductive SlugError where
  | Empty
  | TooLong (len : Nat)
  | InvalidCharacters
  | InvalidHyphenPosition
deriving Repr, DecidableEq

/-- Rust `char::is_ascii_lowercase`: code point in `'a'..='z'`. -/
def is_ascii_lowercase (c : Char) : Bool :=
  97 ≤ c.toNat && c.toNat ≤ 122

/-- Rust `char::is_ascii_digit`: code point in `'0'..='9'`. -/
def is_ascii_digit (c : Char) : Bool :=
  48 ≤ c.toNat && c.toNat ≤ 57

/-- Number of bytes of the UTF-8 encoding of one scalar value; Rust
`String::len` sums this over the characters. -/
def char_utf8_len (c : Char) : Nat :=
  if c.toNat ≤ 0x7F then 1
  else if c.toNat ≤ 0x7FF then 2
  else if c.toNat ≤ 0xFFFF then 3
  else 4

/-- Rust `String::len` (UTF-8 byte length) of a string given as its
character list. -/
def rust_len (s : List Char) : Nat :=
  (s.map char_utf8_len).sum

/-- `Slug::new` from `model.rs`, on the character list of the input string:
empty check, then byte-length check, then character-set check, then
boundary-hyphen check. -/
def Slug.new (s : List Char) : Except SlugError (List Char) :=
  if s.isEmpty then .error .Empty
  else if MAX_SLUG_LENGTH < rust_len s then .error (.TooLong (rust_len s))
  else if (s.all fun c => is_ascii_lowercase c || is_ascii_digit c || c == '-') = false then
    .error .InvalidCharacters
  else if s.head? = some '-' ∨ s.getLast? = some '-' then .error .InvalidHyphenPosition
  else .ok s

-- ===========================================================================
-- db.rs: the store, as explicit state
-- ===========================================================================

/-- One DynamoDB item of the monitors table: every attribute is optional,
since `update_item` writes attributes independently. -/
structure Item where
  interval_secs : Option Nat
  last_ping : Option Int
  next_due : Option Int
  check_partition : Option String
  expires_at : Option Int
  created_at : Option Int
  last_alerted_at : Option Int
  alert_count : Option Nat
  paused : Option Bool
deriving Repr, DecidableEq

/-- The item `update_item` starts from when no row exists for the key. -/
def emptyItem : Item :=
  { interval_secs := none, last_ping := none, next_due := none,
    check_partition := none, expires_at := none, created_at := none,
    last_alerted_at := none, alert_count := none, paused := none }

/-- `DynamoStore::upsert_monitor` from `db.rs`: the `update_item` call with
expression `SET interval_secs, last_ping, next_due, check_partition,
expires_at` unconditionally and
`created_at = if_not_exists(created_at, :created_at)`.  `row` is the stored
item for `monitor.slug` before the call (`none` if the row is absent, in
which case DynamoDB creates it). -/
def upsert_monitor (monitor : Monitor) (row : Option Item) : Item :=
  let old := row.getD emptyItem
  { old with
    interval_secs := some monitor.interval_secs
    last_ping := some monitor.last_ping
    next_due := some monitor.next_due
    check_partition := some monitor.check_partition
    expires_at := some monitor.expires_at
    created_at := some (old.created_at.getD monitor.created_at) }

/-- The alert-state columns of the table, keyed by slug:
`(last_alerted_at, alert_count)` attributes of each row. -/
def AlertStore : Type := String → Option Int × Option Nat

/-- `DynamoStore::update_alert_state` from `db.rs`:
`SET last_alerted_at = :now, alert_count = :count` on the row `slug`. -/
def update_alert_state (st : AlertStore) (slug : String) (now_epoch : Int)
    (alert_count : Nat) : AlertStore :=
  fun s => if s = slug then (some now_epoch, some alert_count) else st s

/-- `DynamoStore::clear_alert_state` from `db.rs`:
`REMOVE last_alerted_at, alert_count` on the row `slug`. -/
def clear_alert_state (st : AlertStore) (slug : String) : AlertStore :=
  fun s => if s = slug then (none, none) else st s

-- ===========================================================================
-- alerts.rs: MarkdownV2 escaping and message formatting
-- ===========================================================================

/-- The backtick character (code point 96). -/
def backtick : Char := Char.ofNat 96

/-- The backslash character (code point 92). -/
def bslash : Char := Char.ofNat 92

/-- `MARKDOWN_V2_SPECIAL` from `alerts.rs`: characters that must be escaped
outside of code spans. -/
def MARKDOWN_V2_SPECIAL : List Char :=
  ['_', '*', '[', ']', '(', ')', '~', backtick, '>', '#', '+', '-', '=', '|',
   '{', '}', '.', '!']

/-- The scanning loop of `escape_around_code_spans` from `alerts.rs`, on the
character list, carrying the `in_code` flag.  Branch order as in the source:
backtick toggles, then the escaped-pair pass-through (which also consumes the
following character), then the inside-code pass-through, then the
special-character escape. -/
def escapeGo : Bool → List Char → List Char
  | _, [] => []
  | in_code, c :: rest =>
    if c = backtick then
      c :: escapeGo (!in_code) rest
    else if c = bslash ∧ in_code = false then
      match rest with
      | [] => [c]
      | d :: rest2 => c :: d :: escapeGo in_code rest2
    else if in_code then
      c :: escapeGo in_code rest
    else if c ∈ MARKDOWN_V2_SPECIAL then
      bslash :: c :: escapeGo in_code rest
    else
      c :: escapeGo in_code rest

/-- `escape_around_code_spans` from `alerts.rs`: the scan starts outside any
code span. -/
def escape_around_code_spans (text : String) : String :=
  ⟨escapeGo false text.data⟩

/-- `escape_markdown_v2` from `alerts.rs`: unconditional escaping of every
special character. -/
def escape_markdown_v2 (text : String) : String :=
  ⟨text.data.foldr
    (fun ch acc => if ch ∈ MARKDOWN_V2_SPECIAL then bslash :: ch :: acc else ch :: acc)
    []⟩

/-- The item writer of `humantime::format_duration` (the crate behind
`format_duration` in `alerts.rs`): each `(name, value, plural)` component is
printed as `{value}{name}` (with an `s` appended for plural names when the
value exceeds one), skipped when zero, and separated from an earlier printed
component by one space.  The sub-second components are omitted because
`alerts.rs` always builds the duration with `Duration::from_secs`. -/
def fmtItems : List (String × Nat × Bool) → Bool → String
  | [], _ => ""
  | (name, value, plural) :: rest, started =>
    if value = 0 then fmtItems rest started
    else
      (if started then " " else "") ++ toString value ++ name ++
        (if plural && 1 < value then "s" else "") ++ fmtItems rest true

/-- `format_duration` from `alerts.rs`: `"0s"` for zero, otherwise
`humantime::format_duration`, whose unit decomposition uses a 365.25-day year
(31557600 s) and a 30.44-day month (2630016 s). -/
def format_duration (secs : Nat) : String :=
  if secs = 0 then "0s"
  else
    let years := secs / 31557600
    let ydays := secs % 31557600
    let months := ydays / 2630016
    let mdays := ydays % 2630016
    let days := mdays / 86400
    let day_secs := mdays % 86400
    let hours := day_secs / 3600
    let minutes := day_secs % 3600 / 60
    let seconds := day_secs % 60
    fmtItems
      [("year", years, true), ("month", months, true), ("day", days, true),
       ("h", hours, false), ("m", minutes, false), ("s", seconds, false)]
      false

/-- Two-digit zero-padded decimal, as produced by chrono's `%H`/`%M`. -/
def pad2 (n : Nat) : String :=
  if n < 10 then "0" ++ toString n else toString n

/-- `format_time` from `alerts.rs`: chrono's `%H:%M UTC` rendering of an epoch
timestamp.  Hour and minute of day are the Euclidean remainders, which is
what the proleptic Gregorian UTC calendar yields for any epoch; the
`"unknown"` fallback for timestamps beyond chrono's ±262000-year range is not
modelled (no claim reaches it). -/
def format_time (epoch : Int) : String :=
  pad2 ((epoch.emod 86400).ediv 3600).toNat ++ ":" ++
    pad2 ((epoch.emod 3600).ediv 60).toNat ++ " UTC"

/-- `format_overdue` from `alerts.rs`.  `late_secs` is
`(now - last_ping).saturating_sub(interval_secs as i64)` in the source; the
saturation points (±2⁶³) are not modelled. -/
def format_overdue (slug : String) (interval_secs : Nat) (last_ping : Int)
    (now : Int) : String :=
  let interval := format_duration interval_secs
  let last := format_time last_ping
  let late_secs := now - last_ping - (interval_secs : Int)
  let late := format_duration (max late_secs 0).toNat
  escape_around_code_spans
    ("⚠️ OVERDUE: \x60" ++ slug ++ "\x60 | interval: " ++ interval ++
      " | last: " ++ last ++ " | " ++ late ++ " late")

/-- `format_repeat` from `alerts.rs`. -/
def format_repeat (slug : String) (total_downtime_secs : Nat) : String :=
  let downtime := format_duration total_downtime_secs
  escape_around_code_spans
    ("⚠️ STILL OVERDUE: \x60" ++ slug ++ "\x60 | down " ++ downtime)

/-- `format_recovery` from `alerts.rs`; the source embeds pre-escaped
parentheses (`\\(` and `\\)`). -/
def format_recovery (slug : String) (downtime_secs : Nat) : String :=
  let downtime := format_duration downtime_secs
  escape_around_code_spans
    ("✅ RECOVERED: \x60" ++ slug ++ "\x60 \\(was down " ++ downtime ++ "\\)")

-- ===========================================================================
-- telegram.rs: send_with_retry
-- ===========================================================================

/-- The retry loop of `TelegramClient::send_with_retry` from `telegram.rs`.
The list holds the outcome of each remaining `send_message` call slot
(`none` means `Ok`, `some e` the error); the source iterates over the
singleton 0-delay chained with the three retry delays, i.e. 4 slots.
`last_err` carries the most recent error, as in the source.  The result
pairs the returned value with the number of `send_message` calls made.  On
exhaustion the carried error is returned (the `last_err.expect` of the
source; the `none` case of that match is the source's unreachable panic,
since every iteration either returns or sets `last_err`). -/
def retryLoop {ε : Type} (last_err : Option ε) :
    List (Option ε) → Except ε Unit × Nat
  | [] =>
    match last_err with
    | some e => (Except.error e, 0)
    | none => (Except.ok (), 0)
  | outcome :: rest =>
    match outcome with
    | none => (Except.ok (), 1)
    | some e => ((retryLoop (some e) rest).1, (retryLoop (some e) rest).2 + 1)

/-- `send_with_retry` from `telegram.rs`: up to 4 attempts total, where
`attempts k` is the outcome of attempt number `k` (from 0). -/
def send_with_retry {ε : Type} (attempts : Nat → Option ε) :
    Except ε Unit × Nat :=
  retryLoop none [attempts 0, attempts 1, attempts 2, attempts 3]

-- ===========================================================================
-- checker.rs: the check cycle
-- ===========================================================================

/-- `REPEAT_ALERT_INTERVAL_SECS` from `checker.rs`. -/
def REPEAT_ALERT_INTERVAL_SECS : Int := 3600

/-- The notification sink: `send msg = true` models `send_with_retry`
returning `Ok(())` for `msg`, `false` a `TelegramError`. -/
def Sink : Type := String → Bool

/-- The body of the overdue loop of `check_monitors` (`checker.rs` lines
90–144) for one non-paused monitor: branch on `last_alerted_at`, format and
attempt the message, and update the alert state only on delivery success.
Returns the store after the step and the list of attempted messages. -/
def processOverdueMonitor (send : Sink) (now : Int) (monitor : Monitor)
    (st : AlertStore) : AlertStore × List String :=
  let alert_count := monitor.alert_count.getD 0
  match monitor.last_alerted_at with
  | none =>
    let msg := format_overdue monitor.slug monitor.interval_secs monitor.last_ping now
    if send msg then
      (update_alert_state st monitor.slug now (alert_count + 1), [msg])
    else
      (st, [msg])
  | some last_alert =>
    if REPEAT_ALERT_INTERVAL_SECS ≤ now - last_alert then
      let total_downtime := (max (now - monitor.next_due) 0).toNat
      let msg := format_repeat monitor.slug total_downtime
      if send msg then
        (update_alert_state st monitor.slug now (alert_count + 1), [msg])
      else
        (st, [msg])
    else
      (st, [])

/-- The overdue loop of `check_monitors` (`checker.rs` lines 79–145) over the
result of `query_overdue`: paused monitors are skipped entirely, all others
have their slug added to `overdue_slugs` and are processed by
`processOverdueMonitor`.  Returns the final `overdue_slugs`, the store, and
the attempted messages in order. -/
def overduePass (send : Sink) (now : Int) :
    List Monitor → List String → AlertStore → List String × AlertStore × List String
  | [], overdue_slugs, st => (overdue_slugs, st, [])
  | monitor :: rest, overdue_slugs, st =>
    if MonitorStatus.derive monitor now = MonitorStatus.Paused then
      overduePass send now rest overdue_slugs st
    else
      let step := processOverdueMonitor send now monitor st
      let rest2 := overduePass send now rest (monitor.slug :: overdue_slugs) step.1
      (rest2.1, rest2.2.1, step.2 ++ rest2.2.2)

/-- The body of the recovery loop of `check_monitors` (`checker.rs` lines
148–179) for one monitor of the alerted set: skip when still overdue or
paused, otherwise send the recovery message and clear the alert state only on
delivery success. -/
def processAlertedMonitor (send : Sink) (now : Int) (overdue_slugs : List String)
    (monitor : Monitor) (st : AlertStore) : AlertStore × List String :=
  if monitor.slug ∈ overdue_slugs then (st, [])
  else if MonitorStatus.derive monitor now = MonitorStatus.Paused then (st, [])
  else
    match monitor.last_alerted_at with
    | some last_alert =>
      let downtime := (max (now - last_alert) 0).toNat
      let msg := format_recovery monitor.slug downtime
      if send msg then (clear_alert_state st monitor.slug, [msg])
      else (st, [msg])
    | none => (st, [])

/-- The recovery loop of `check_monitors` over the result of
`query_alerted`. -/
def recoveryPass (send : Sink) (now : Int) (overdue_slugs : List String) :
    List Monitor → AlertStore → AlertStore × List String
  | [], st => (st, [])
  | monitor :: rest, st =>
    let step := processAlertedMonitor send now overdue_slugs monitor st
    let rest2 := recoveryPass send now overdue_slugs rest step.1
    (rest2.1, step.2 ++ rest2.2)

/-- `check_monitors` from `checker.rs`: `overdue` and `alerted` are the query
results captured at time `now`, `st` the alert-state columns of the table.
Returns the store after the cycle and the attempted messages. -/
def check_monitors (send : Sink) (now : Int) (overdue alerted : List Monitor)
    (st : AlertStore) : AlertStore × List String :=
  let pass1 := overduePass send now overdue [] st
  let pass2 := recoveryPass send now pass1.1 alerted pass1.2.1
  (pass2.1, pass1.2.2 ++ pass2.2)

-- ===========================================================================
-- Helper lemmas: single-step characterizations
-- ===========================================================================

theorem update_alert_state_at_slug (st : AlertStore) (slug : String) (now : Int)
    (c : Nat) : update_alert_state st slug now c slug = (some now, some c) := by
  simp [update_alert_state]

theorem update_alert_state_at_other (st : AlertStore) (slug : String) (now : Int)
    (c : Nat) (s : String) (hs : s ≠ slug) : update_alert_state st slug now c s = st s := by
  simp [update_alert_state, hs]

theorem clear_alert_state_at_slug (st : AlertStore) (slug : String) :
    clear_alert_state st slug slug = (none, none) := by
  simp [clear_alert_state]

theorem clear_alert_state_at_other (st : AlertStore) (slug : String) (s : String)
    (hs : s ≠ slug) : clear_alert_state st slug s = st s := by
  simp [clear_alert_state, hs]

theorem processOverdueMonitor_first_ok (send : Sink) (now : Int) (m : Monitor)
    (st : AlertStore) (hla : m.last_alerted_at = none)
    (hsend : send (format_overdue m.slug m.interval_secs m.last_ping now) = true) :
    processOverdueMonitor send now m st =
      (update_alert_state st m.slug now (m.alert_count.getD 0 + 1),
       [format_overdue m.slug m.interval_secs m.last_ping now]) := by
  simp [processOverdueMonitor, hla, hsend]

theorem processOverdueMonitor_first_fail (send : Sink) (now : Int) (m : Monitor)
    (st : AlertStore) (hla : m.last_alerted_at = none)
    (hsend : send (format_overdue m.slug m.interval_secs m.last_ping now) = false) :
    processOverdueMonitor send now m st =
      (st, [format_overdue m.slug m.interval_secs m.last_ping now]) := by
  simp [processOverdueMonitor, hla, hsend]

theorem processOverdueMonitor_repeat_ok (send : Sink) (now : Int) (m : Monitor)
    (st : AlertStore) (la : Int) (hla : m.last_alerted_at = some la)
    (hrep : REPEAT_ALERT_INTERVAL_SECS ≤ now - la)
    (hsend : send (format_repeat m.slug (max (now - m.next_due) 0).toNat) = true) :
    processOverdueMonitor send now m st =
      (update_alert_state st m.slug now (m.alert_count.getD 0 + 1),
       [format_repeat m.slug (max (now - m.next_due) 0).toNat]) := by
  simp [processOverdueMonitor, hla, hrep, hsend]

theorem processOverdueMonitor_repeat_fail (send : Sink) (now : Int) (m : Monitor)
    (st : AlertStore) (la : Int) (hla : m.last_alerted_at = some la)
    (hrep : REPEAT_ALERT_INTERVAL_SECS ≤ now - la)
    (hsend : send (format_repeat m.slug (max (now - m.next_due) 0).toNat) = false) :
    processOverdueMonitor send now m st =
      (st, [format_repeat m.slug (max (now - m.next_due) 0).toNat]) := by
  simp [processOverdueMonitor, hla, hrep, hsend]

theorem processOverdueMonitor_repeat_skip (send : Sink) (now : Int) (m : Monitor)
    (st : AlertStore) (la : Int) (hla : m.last_alerted_at = some la)
    (hrep : now - la < REPEAT_ALERT_INTERVAL_SECS) :
    processOverdueMonitor send now m st = (st, []) := by
  simp [processOverdueMonitor, hla, not_le.mpr hrep]

theorem processOverdueMonitor_store_frame (send : Sink) (now : Int) (m : Monitor)
    (st : AlertStore) (s : String) (hs : s ≠ m.slug) :
    (processOverdueMonitor send now m st).1 s = st s := by
  unfold processOverdueMonitor
  cases m.last_alerted_at <;> dsimp only <;>
    repeat' split
  all_goals simp [update_alert_state, hs]

theorem processAlertedMonitor_skip_mem (send : Sink) (now : Int)
    (overdue_slugs : List String) (m : Monitor) (st : AlertStore)
    (h : m.slug ∈ overdue_slugs) :
    processAlertedMonitor send now overdue_slugs m st = (st, []) := by
  simp [processAlertedMonitor, h]

theorem processAlertedMonitor_skip_paused (send : Sink) (now : Int)
    (overdue_slugs : List String) (m : Monitor) (st : AlertStore)
    (h : MonitorStatus.derive m now = MonitorStatus.Paused) :
    processAlertedMonitor send now overdue_slugs m st = (st, []) := by
  unfold processAlertedMonitor
  split
  · rfl
  · simp [h]

theorem processAlertedMonitor_recover_ok (send : Sink) (now : Int)
    (overdue_slugs : List String) (m : Monitor) (st : AlertStore) (la : Int)
    (hmem : m.slug ∉ overdue_slugs)
    (hnp : MonitorStatus.derive m now ≠ MonitorStatus.Paused)
    (hla : m.last_alerted_at = some la)
    (hsend : send (format_recovery m.slug (max (now - la) 0).toNat) = true) :
    processAlertedMonitor send now overdue_slugs m st =
      (clear_alert_state st m.slug,
       [format_recovery m.slug (max (now - la) 0).toNat]) := by
  simp [processAlertedMonitor, hmem, hnp, hla, hsend]

theorem processAlertedMonitor_recover_fail (send : Sink) (now : Int)
    (overdue_slugs : List String) (m : Monitor) (st : AlertStore) (la : Int)
    (hmem : m.slug ∉ overdue_slugs)
    (hnp : MonitorStatus.derive m now ≠ MonitorStatus.Paused)
    (hla : m.last_alerted_at = some la)
    (hsend : send (format_recovery m.slug (max (now - la) 0).toNat) = false) :
    processAlertedMonitor send now overdue_slugs m st =
      (st, [format_recovery m.slug (max (now - la) 0).toNat]) := by
  simp [processAlertedMonitor, hmem, hnp, hla, hsend]

theorem processAlertedMonitor_store_frame (send : Sink) (now : Int)
    (overdue_slugs : List String) (m : Monitor) (st : AlertStore) (s : String)
    (hs : s ≠ m.slug) :
    (processAlertedMonitor send now overdue_slugs m st).1 s = st s := by
  unfold processAlertedMonitor
  repeat' split
  all_goals dsimp only
  all_goals try split
  all_goals simp [clear_alert_state, hs]

-- ===========================================================================
-- Helper lemmas: the two loops
-- ===========================================================================

theorem overduePass_cons_paused (send : Sink) (now : Int) (m : Monitor)
    (rest : List Monitor) (slugs : List String) (st : AlertStore)
    (h : MonitorStatus.derive m now = MonitorStatus.Paused) :
    overduePass send now (m :: rest) slugs st = overduePass send now rest slugs st := by
  simp [overduePass, h]

theorem overduePass_cons_active (send : Sink) (now : Int) (m : Monitor)
    (rest : List Monitor) (slugs : List String) (st : AlertStore)
    (h : MonitorStatus.derive m now ≠ MonitorStatus.Paused) :
    overduePass send now (m :: rest) slugs st =
      ((overduePass send now rest (m.slug :: slugs)
          (processOverdueMonitor send now m st).1).1,
       (overduePass send now rest (m.slug :: slugs)
          (processOverdueMonitor send now m st).1).2.1,
       (processOverdueMonitor send now m st).2 ++
         (overduePass send now rest (m.slug :: slugs)
            (processOverdueMonitor send now m st).1).2.2) := by
  simp [overduePass, h]

theorem overduePass_slugs_mono (send : Sink) (now : Int) (list : List Monitor)
    (slugs : List String) (st : AlertStore) (x : String) (hx : x ∈ slugs) :
    x ∈ (overduePass send now list slugs st).1 := by
  induction list generalizing slugs st with
  | nil => simpa [overduePass] using hx
  | cons m rest ih =>
    by_cases h : MonitorStatus.derive m now = MonitorStatus.Paused
    · rw [overduePass_cons_paused send now m rest slugs st h]
      exact ih slugs st hx
    · rw [overduePass_cons_active send now m rest slugs st h]
      exact ih (m.slug :: slugs) _ (List.mem_cons_of_mem _ hx)

theorem overduePass_slug_mem (send : Sink) (now : Int) (list : List Monitor)
    (slugs : List String) (st : AlertStore) (m : Monitor) (hm : m ∈ list)
    (hnp : MonitorStatus.derive m now ≠ MonitorStatus.Paused) :
    m.slug ∈ (overduePass send now list slugs st).1 := by
  induction list generalizing slugs st with
  | nil => cases hm
  | cons h2 rest ih =>
    rcases List.mem_cons.mp hm with heq | hmem
    · subst heq
      rw [overduePass_cons_active send now m rest slugs st hnp]
      exact overduePass_slugs_mono send now rest _ _ _ (List.mem_cons_self _ _)
    · by_cases hp : MonitorStatus.derive h2 now = MonitorStatus.Paused
      · rw [overduePass_cons_paused send now h2 rest slugs st hp]
        exact ih slugs st hmem
      · rw [overduePass_cons_active send now h2 rest slugs st hp]
        exact ih (h2.slug :: slugs) _ hmem

theorem overduePass_store_keepval (send : Sink) (now : Int) (list : List Monitor)
    (slugs : List String) (st : AlertStore) (s : String) (v : Option Int × Option Nat)
    (H : ∀ m ∈ list, MonitorStatus.derive m now = MonitorStatus.Paused ∨
      (∀ σ, (processOverdueMonitor send now m σ).1 s = σ s) ∨
      (∀ σ, (processOverdueMonitor send now m σ).1 s = v))
    (hst : st s = v) :
    (overduePass send now list slugs st).2.1 s = v := by
  induction list generalizing slugs st with
  | nil => simpa [overduePass] using hst
  | cons m rest ih =>
    have Hrest : ∀ m' ∈ rest, MonitorStatus.derive m' now = MonitorStatus.Paused ∨
        (∀ σ, (processOverdueMonitor send now m' σ).1 s = σ s) ∨
        (∀ σ, (processOverdueMonitor send now m' σ).1 s = v) :=
      fun m' hm' => H m' (List.mem_cons_of_mem _ hm')
    rcases H m (List.mem_cons_self _ _) with hp | hid | hwr
    · rw [overduePass_cons_paused send now m rest slugs st hp]
      exact ih slugs st Hrest hst
    · by_cases hp : MonitorStatus.derive m now = MonitorStatus.Paused
      · rw [overduePass_cons_paused send now m rest slugs st hp]
        exact ih slugs st Hrest hst
      · rw [overduePass_cons_active send now m rest slugs st hp]
        exact ih _ _ Hrest (by rw [hid st]; exact hst)
    · by_cases hp : MonitorStatus.derive m now = MonitorStatus.Paused
      · rw [overduePass_cons_paused send now m rest slugs st hp]
        exact ih slugs st Hrest hst
      · rw [overduePass_cons_active send now m rest slugs st hp]
        exact ih _ _ Hrest (hwr st)

theorem overduePass_store_write (send : Sink) (now : Int) (list : List Monitor)
    (slugs : List String) (st : AlertStore) (s : String) (v : Option Int × Option Nat)
    (m : Monitor) (hm : m ∈ list)
    (hnp : MonitorStatus.derive m now ≠ MonitorStatus.Paused)
    (hwr : ∀ σ, (processOverdueMonitor send now m σ).1 s = v)
    (H : ∀ m' ∈ list, MonitorStatus.derive m' now = MonitorStatus.Paused ∨
      (∀ σ, (processOverdueMonitor send now m' σ).1 s = σ s) ∨
      (∀ σ, (processOverdueMonitor send now m' σ).1 s = v)) :
    (overduePass send now list slugs st).2.1 s = v := by
  induction list generalizing slugs st with
  | nil => cases hm
  | cons h2 rest ih =>
    have Hrest : ∀ m' ∈ rest, MonitorStatus.derive m' now = MonitorStatus.Paused ∨
        (∀ σ, (processOverdueMonitor send now m' σ).1 s = σ s) ∨
        (∀ σ, (processOverdueMonitor send now m' σ).1 s = v) :=
      fun m' hm' => H m' (List.mem_cons_of_mem _ hm')
    rcases List.mem_cons.mp hm with heq | hmem
    · subst heq
      rw [overduePass_cons_active send now m rest slugs st hnp]
      exact overduePass_store_keepval send now rest _ _ s v Hrest (hwr st)
    · by_cases hp : MonitorStatus.derive h2 now = MonitorStatus.Paused
      · rw [overduePass_cons_paused send now h2 rest slugs st hp]
        exact ih slugs st hmem Hrest
      · rw [overduePass_cons_active send now h2 rest slugs st hp]
        exact ih _ _ hmem Hrest

theorem recoveryPass_cons (send : Sink) (now : Int) (overdue_slugs : List String)
    (m : Monitor) (rest : List Monitor) (st : AlertStore) :
    recoveryPass send now overdue_slugs (m :: rest) st =
      ((recoveryPass send now overdue_slugs rest
          (processAlertedMonitor send now overdue_slugs m st).1).1,
       (processAlertedMonitor send now overdue_slugs m st).2 ++
         (recoveryPass send now overdue_slugs rest
            (processAlertedMonitor send now overdue_slugs m st).1).2) := by
  simp [recoveryPass]

theorem recoveryPass_store_keepval (send : Sink) (now : Int)
    (overdue_slugs : List String) (list : List Monitor) (st : AlertStore)
    (s : String) (v : Option Int × Option Nat)
    (H : ∀ m ∈ list,
      (∀ σ, (processAlertedMonitor send now overdue_slugs m σ).1 s = σ s) ∨
      (∀ σ, (processAlertedMonitor send now overdue_slugs m σ).1 s = v))
    (hst : st s = v) :
    (recoveryPass send now overdue_slugs list st).1 s = v := by
  induction list generalizing st with
  | nil => simpa [recoveryPass] using hst
  | cons m rest ih =>
    have Hrest := fun m' hm' => H m' (List.mem_cons_of_mem _ hm')
    rw [recoveryPass_cons]
    rcases H m (List.mem_cons_self _ _) with hid | hwr
    · exact ih _ Hrest (by rw [hid st]; exact hst)
    · exact ih _ Hrest (hwr st)

theorem recoveryPass_store_write (send : Sink) (now : Int)
    (overdue_slugs : List String) (list : List Monitor) (st : AlertStore)
    (s : String) (v : Option Int × Option Nat) (m : Monitor) (hm : m ∈ list)
    (hwr : ∀ σ, (processAlertedMonitor send now overdue_slugs m σ).1 s = v)
    (H : ∀ m' ∈ list,
      (∀ σ, (processAlertedMonitor send now overdue_slugs m' σ).1 s = σ s) ∨
      (∀ σ, (processAlertedMonitor send now overdue_slugs m' σ).1 s = v)) :
    (recoveryPass send now overdue_slugs list st).1 s = v := by
  induction list generalizing st with
  | nil => cases hm
  | cons h2 rest ih =>
    have Hrest := fun m' hm' => H m' (List.mem_cons_of_mem _ hm')
    rw [recoveryPass_cons]
    rcases List.mem_cons.mp hm with heq | hmem
    · subst heq
      exact recoveryPass_store_keepval send now overdue_slugs rest _ s v Hrest (hwr st)
    · exact ih _ hmem Hrest

theorem recoveryPass_store_frame_mem (send : Sink) (now : Int)
    (overdue_slugs : List String) (list : List Monitor) (st : AlertStore)
    (s : String) (hs : s ∈ overdue_slugs) :
    (recoveryPass send now overdue_slugs list st).1 s = st s := by
  apply recoveryPass_store_keepval send now overdue_slugs list st s (st s) _ rfl
  intro m _
  left
  intro σ
  by_cases hmem : m.slug ∈ overdue_slugs
  · rw [processAlertedMonitor_skip_mem send now overdue_slugs m σ hmem]
  · exact processAlertedMonitor_store_frame send now overdue_slugs m σ s
      (fun h => hmem (h ▸ hs))

theorem recoveryPass_sent_mem (send : Sink) (now : Int)
    (overdue_slugs : List String) (list : List Monitor) (st : AlertStore)
    (m : Monitor) (la : Int) (hm : m ∈ list)
    (hmem : m.slug ∉ overdue_slugs)
    (hnp : MonitorStatus.derive m now ≠ MonitorStatus.Paused)
    (hla : m.last_alerted_at = some la) :
    format_recovery m.slug (max (now - la) 0).toNat ∈
      (recoveryPass send now overdue_slugs list st).2 := by
  induction list generalizing st with
  | nil => cases hm
  | cons h2 rest ih =>
    rw [recoveryPass_cons]
    rcases List.mem_cons.mp hm with heq | hmem2
    · subst heq
      rcases hsend : send (format_recovery m.slug (max (now - la) 0).toNat) with _ | _
      · rw [processAlertedMonitor_recover_fail send now overdue_slugs m st la hmem hnp hla hsend]
        exact List.mem_append_left _ (List.mem_singleton.mpr rfl)
      · rw [processAlertedMonitor_recover_ok send now overdue_slugs m st la hmem hnp hla hsend]
        exact List.mem_append_left _ (List.mem_singleton.mpr rfl)
    · exact List.mem_append_right _ (ih _ hmem2)

theorem processOverdueMonitor_store_allfail (send : Sink) (now : Int)
    (m : Monitor) (st : AlertStore) (hsend : ∀ t, send t = false) :
    (processOverdueMonitor send now m st).1 = st := by
  unfold processOverdueMonitor
  cases m.last_alerted_at <;> simp [hsend] <;> split <;> rfl

theorem overduePass_store_allfail (send : Sink) (now : Int) (list : List Monitor)
    (slugs : List String) (st : AlertStore) (hsend : ∀ t, send t = false) :
    (overduePass send now list slugs st).2.1 = st := by
  induction list generalizing slugs st with
  | nil => rfl
  | cons m rest ih =>
    by_cases hp : MonitorStatus.derive m now = MonitorStatus.Paused
    · rw [overduePass_cons_paused send now m rest slugs st hp]
      exact ih slugs st
    · rw [overduePass_cons_active send now m rest slugs st hp]
      rw [processOverdueMonitor_store_allfail send now m st hsend]
      exact ih _ st

theorem processAlertedMonitor_store_allfail (send : Sink) (now : Int)
    (overdue_slugs : List String) (m : Monitor) (st : AlertStore)
    (hsend : ∀ t, send t = false) :
    (processAlertedMonitor send now overdue_slugs m st).1 = st := by
  unfold processAlertedMonitor
  repeat' split
  all_goals dsimp only
  all_goals simp [hsend]

theorem recoveryPass_store_allfail (send : Sink) (now : Int)
    (overdue_slugs : List String) (list : List Monitor) (st : AlertStore)
    (hsend : ∀ t, send t = false) :
    (recoveryPass send now overdue_slugs list st).1 = st := by
  induction list generalizing st with
  | nil => rfl
  | cons m rest ih =>
    rw [recoveryPass_cons]
    rw [processAlertedMonitor_store_allfail send now overdue_slugs m st hsend]
    exact ih st

-- ===========================================================================
-- Concrete fixtures for witnesses
-- ===========================================================================

/-- A monitor fixture with the varying fields exposed (the fixed fields
mirror the test fixture of `model.rs`). -/
def testMonitor (slug : String) (next_due : Int) (la : Option Int)
    (ac : Option Nat) (paused : Option Bool) : Monitor :=
  { slug := slug, interval_secs := 300, last_ping := 1000, next_due := next_due,
    check_partition := "CHECK", last_alerted_at := la, alert_count := ac,
    created_at := 1000, paused := paused, expires_at := 8776000 }

/-- The all-absent alert-state table. -/
def emptyAlertStore : AlertStore := fun _ => (none, none)

-- ===========================================================================
-- Claims
-- ===========================================================================

/-- Claim C1: in each of the three notification cases of a check cycle
(first alert, repeat alert, recovery), a failed delivery leaves the alert
store exactly as it was, and a cycle in which every delivery fails leaves
the whole store untouched. -/
theorem claim_C1 :
    (∀ (send : Sink) (now : Int) (m : Monitor) (st : AlertStore),
      m.last_alerted_at = none →
      send (format_overdue m.slug m.interval_secs m.last_ping now) = false →
      (processOverdueMonitor send now m st).1 = st) ∧
    (∀ (send : Sink) (now : Int) (m : Monitor) (st : AlertStore) (la : Int),
      m.last_alerted_at = some la →
      send (format_repeat m.slug (max (now - m.next_due) 0).toNat) = false →
      (processOverdueMonitor send now m st).1 = st) ∧
    (∀ (send : Sink) (now : Int) (slugs : List String) (m : Monitor)
        (st : AlertStore) (la : Int),
      m.last_alerted_at = some la →
      send (format_recovery m.slug (max (now - la) 0).toNat) = false →
      (processAlertedMonitor send now slugs m st).1 = st) ∧
    (∀ (send : Sink) (now : Int) (overdue alerted : List Monitor) (st : AlertStore),
      (∀ t, send t = false) →
      (check_monitors send now overdue alerted st).1 = st) := by
  refine ⟨?_, ?_, ?_, ?_⟩
  · intro send now m st hla hsend
    rw [processOverdueMonitor_first_fail send now m st hla hsend]
  · intro send now m st la hla hsend
    rcases lt_or_le (now - la) REPEAT_ALERT_INTERVAL_SECS with hrep | hrep
    · rw [processOverdueMonitor_repeat_skip send now m st la hla hrep]
    · rw [processOverdueMonitor_repeat_fail send now m st la hla hrep hsend]
  · intro send now slugs m st la hla hsend
    by_cases hmem : m.slug ∈ slugs
    · rw [processAlertedMonitor_skip_mem send now slugs m st hmem]
    · by_cases hp : MonitorStatus.derive m now = MonitorStatus.Paused
      · rw [processAlertedMonitor_skip_paused send now slugs m st hp]
      · rw [processAlertedMonitor_recover_fail send now slugs m st la hmem hp hla hsend]
  · intro send now overdue alerted st hsend
    unfold check_monitors
    dsimp only
    rw [recoveryPass_store_allfail send now _ alerted _ hsend]
    exact overduePass_store_allfail send now overdue [] st hsend

/-- Witness for C1 at a concrete always-failing sink and cycle. -/
theorem claim_C1_witness :
    (check_monitors (fun _ => false) 5000
      [testMonitor "job" 1300 none none none]
      [testMonitor "gone" 9999 (some 2000) (some 1) none]
      emptyAlertStore).1 = emptyAlertStore :=
  claim_C1.2.2.2 (fun _ => false) 5000 _ _ emptyAlertStore (fun _ => rfl)

/-- Claim C5: a paused monitor in the overdue query result is skipped
entirely — the overdue loop behaves as if it were absent, so it is neither
alerted nor added to the recovery-exclusion slug set — and a paused monitor
of the alerted set produces no recovery message and leaves its stored alert
state unchanged. -/
theorem claim_C5 :
    (∀ (send : Sink) (now : Int) (m : Monitor) (rest : List Monitor)
        (slugs : List String) (st : AlertStore),
      MonitorStatus.derive m now = MonitorStatus.Paused →
      overduePass send now (m :: rest) slugs st =
        overduePass send now rest slugs st) ∧
    (∀ (send : Sink) (now : Int) (slugs : List String) (m : Monitor)
        (st : AlertStore),
      MonitorStatus.derive m now = MonitorStatus.Paused →
      processAlertedMonitor send now slugs m st = (st, [])) :=
  ⟨fun send now m rest slugs st h =>
    overduePass_cons_paused send now m rest slugs st h,
   fun send now slugs m st h =>
    processAlertedMonitor_skip_paused send now slugs m st h⟩

/-- Witness for C5 at a concrete paused, overdue, alerted monitor. -/
theorem claim_C5_witness :
    overduePass (fun _ => true) 5000
        [testMonitor "p" 100 (some 1000) (some 2) (some true)] [] emptyAlertStore =
      overduePass (fun _ => true) 5000 [] [] emptyAlertStore ∧
    processAlertedMonitor (fun _ => true) 5000 []
        (testMonitor "p" 100 (some 1000) (some 2) (some true)) emptyAlertStore =
      (emptyAlertStore, []) :=
  ⟨claim_C5.1 (fun _ => true) 5000 _ [] [] emptyAlertStore rfl,
   claim_C5.2 (fun _ => true) 5000 [] _ emptyAlertStore rfl⟩

/-- Claim C6: `upsert_monitor` overwrites `interval_secs`, `last_ping`,
`next_due`, `check_partition` and `expires_at` unconditionally, writes
`created_at` only when the stored row has none, and leaves
`last_alerted_at`, `alert_count` and `paused` exactly as stored. -/
theorem claim_C6 (m : Monitor) (row : Option Item) :
    (upsert_monitor m row).interval_secs = some m.interval_secs ∧
    (upsert_monitor m row).last_ping = some m.last_ping ∧
    (upsert_monitor m row).next_due = some m.next_due ∧
    (upsert_monitor m row).check_partition = some m.check_partition ∧
    (upsert_monitor m row).expires_at = some m.expires_at ∧
    ((row.getD emptyItem).created_at = none →
      (upsert_monitor m row).created_at = some m.created_at) ∧
    (∀ c, (row.getD emptyItem).created_at = some c →
      (upsert_monitor m row).created_at = some c) ∧
    (upsert_monitor m row).last_alerted_at = (row.getD emptyItem).last_alerted_at ∧
    (upsert_monitor m row).alert_count = (row.getD emptyItem).alert_count ∧
    (upsert_monitor m row).paused = (row.getD emptyItem).paused := by
  refine ⟨rfl, rfl, rfl, rfl, rfl, ?_, ?_, rfl, rfl, rfl⟩
  · intro h
    simp [upsert_monitor, h]
  · intro c h
    simp [upsert_monitor, h]

/-- Witness for C6: a later ping does not clobber a stored `created_at`. -/
theorem claim_C6_witness :
    (upsert_monitor (testMonitor "a" 1300 none none none)
      (some { emptyItem with created_at := some 42 })).created_at = some 42 :=
  (claim_C6 (testMonitor "a" 1300 none none none)
    (some { emptyItem with created_at := some 42 })).2.2.2.2.2.2.1 42 rfl

/-- Claim C7: the derived status is `Paused` exactly when `paused = true`,
`Overdue` exactly when not paused and `next_due < now`, and `Ok` otherwise;
in particular `next_due = now` derives `Ok`. -/
theorem claim_C7 (m : Monitor) (now : Int) :
    (MonitorStatus.derive m now = MonitorStatus.Paused ↔ m.paused = some true) ∧
    (MonitorStatus.derive m now = MonitorStatus.Overdue ↔
      m.paused ≠ some true ∧ m.next_due < now) ∧
    (MonitorStatus.derive m now = MonitorStatus.Ok ↔
      m.paused ≠ some true ∧ now ≤ m.next_due) ∧
    (m.paused ≠ some true → m.next_due = now →
      MonitorStatus.derive m now = MonitorStatus.Ok) := by
  unfold MonitorStatus.derive
  split_ifs with h1 h2 <;>
    refine ⟨?_, ?_, ?_, ?_⟩ <;>
    simp_all <;> omega

/-- Witness for C7: a monitor due exactly now derives `Ok`. -/
theorem claim_C7_witness :
    MonitorStatus.derive (testMonitor "a" 5 none none none) 5 = MonitorStatus.Ok :=
  (claim_C7 (testMonitor "a" 5 none none none) 5).2.2.2
    (by simp [testMonitor]) rfl

/-- Claim C9: `send_with_retry` makes at most 4 attempts; it returns `Ok`
right after the first successful attempt, having made exactly that many
calls, and when every attempt fails it returns the error of the last
attempt after exactly 4 calls. -/
theorem claim_C9 {ε : Type} (attempts : Nat → Option ε) :
    (send_with_retry attempts).2 ≤ 4 ∧
    (∀ k, k < 4 → attempts k = none → (∀ j, j < k → attempts j ≠ none) →
      send_with_retry attempts = (Except.ok (), k + 1)) ∧
    (∀ e, (∀ j, j < 3 → attempts j ≠ none) → attempts 3 = some e →
      send_with_retry attempts = (Except.error e, 4)) := by
  refine ⟨?_, ?_, ?_⟩
  · rcases h0 : attempts 0 with _ | e0 <;>
      rcases h1 : attempts 1 with _ | e1 <;>
      rcases h2 : attempts 2 with _ | e2 <;>
      rcases h3 : attempts 3 with _ | e3 <;>
      simp [send_with_retry, retryLoop, h0, h1, h2, h3]
  · intro k hk hnone hprev
    interval_cases k
    · simp [send_with_retry, retryLoop, hnone]
    · obtain ⟨e0, he0⟩ := Option.ne_none_iff_exists'.mp (hprev 0 (by norm_num))
      simp [send_with_retry, retryLoop, hnone, he0]
    · obtain ⟨e0, he0⟩ := Option.ne_none_iff_exists'.mp (hprev 0 (by norm_num))
      obtain ⟨e1, he1⟩ := Option.ne_none_iff_exists'.mp (hprev 1 (by norm_num))
      simp [send_with_retry, retryLoop, hnone, he0, he1]
    · obtain ⟨e0, he0⟩ := Option.ne_none_iff_exists'.mp (hprev 0 (by norm_num))
      obtain ⟨e1, he1⟩ := Option.ne_none_iff_exists'.mp (hprev 1 (by norm_num))
      obtain ⟨e2, he2⟩ := Option.ne_none_iff_exists'.mp (hprev 2 (by norm_num))
      simp [send_with_retry, retryLoop, hnone, he0, he1, he2]
  · intro e hprev h3
    obtain ⟨e0, he0⟩ := Option.ne_none_iff_exists'.mp (hprev 0 (by norm_num))
    obtain ⟨e1, he1⟩ := Option.ne_none_iff_exists'.mp (hprev 1 (by norm_num))
    obtain ⟨e2, he2⟩ := Option.ne_none_iff_exists'.mp (hprev 2 (by norm_num))
    simp [send_with_retry, retryLoop, he0, he1, he2, h3]

/-- Witness for C9: a sink failing twice then succeeding is called exactly
3 times and returns `Ok`. -/
theorem claim_C9_witness :
    send_with_retry (fun k => if k < 2 then some 7 else (none : Option Nat)) =
      (Except.ok (), 3) :=
  (claim_C9 (fun k => if k < 2 then some 7 else (none : Option Nat))).2.1
    2 (by norm_num) (by norm_num) (by decide)

/-- Claim C10: the MarkdownV2 escaper toggles its code-span state at each
backtick, passes a backslash and the character right after it through
unchanged outside code spans, passes everything except backticks through
unchanged inside code spans, prefixes reserved characters with a backslash
outside code spans, and leaves other characters alone; in particular
`"a.b"` becomes `"a\\.b"` while a backticked slug is left untouched. -/
theorem claim_C10 :
    (∀ (rest : List Char) (in_code : Bool),
      escapeGo in_code (backtick :: rest) = backtick :: escapeGo (!in_code) rest) ∧
    (∀ (d : Char) (rest : List Char),
      escapeGo false (bslash :: d :: rest) = bslash :: d :: escapeGo false rest) ∧
    (∀ (c : Char) (rest : List Char), c ≠ backtick →
      escapeGo true (c :: rest) = c :: escapeGo true rest) ∧
    (∀ (c : Char) (rest : List Char), c ≠ backtick → c ≠ bslash →
      c ∈ MARKDOWN_V2_SPECIAL →
      escapeGo false (c :: rest) = bslash :: c :: escapeGo false rest) ∧
    (∀ (c : Char) (rest : List Char), c ≠ backtick → c ≠ bslash →
      c ∉ MARKDOWN_V2_SPECIAL →
      escapeGo false (c :: rest) = c :: escapeGo false rest) ∧
    escape_around_code_spans "a.b" = "a\\.b" ∧
    escape_around_code_spans "\x60my-slug\x60" = "\x60my-slug\x60" ∧
    escape_around_code_spans "hello \x60my-slug\x60 world.end" =
      "hello \x60my-slug\x60 world\\.end" := by
  refine ⟨?_, ?_, ?_, ?_, ?_, ?_, ?_, ?_⟩
  · intro rest in_code
    rw [escapeGo.eq_def]
    simp
  · intro d rest
    rw [escapeGo.eq_def]
    simp [show ¬(bslash = backtick) from by decide]
  · intro c rest hc
    rw [escapeGo.eq_def]
    simp [hc]
  · intro c rest h1 h2 h3
    rw [escapeGo.eq_def]
    simp [h1, h2, h3]
  · intro c rest h1 h2 h3
    rw [escapeGo.eq_def]
    simp [h1, h2, h3]
  · rfl
  · rfl
  · rfl

/-- Witness for C10: the reserved dot is escaped outside a code span. -/
theorem claim_C10_witness : escapeGo false ['.'] = [bslash, '.'] :=
  claim_C10.2.2.2.1 '.' [] (by decide) (by decide) (by decide)

theorem char_utf8_len_allowed (c : Char)
    (h : is_ascii_lowercase c = true ∨ is_ascii_digit c = true ∨ c = '-') :
    char_utf8_len c = 1 := by
  unfold char_utf8_len
  rcases h with h | h | h
  · simp [is_ascii_lowercase] at h
    rw [if_pos (by omega)]
  · simp [is_ascii_digit] at h
    rw [if_pos (by omega)]
  · subst h
    rfl

theorem rust_len_allowed (s : List Char)
    (h : ∀ c ∈ s, is_ascii_lowercase c = true ∨ is_ascii_digit c = true ∨ c = '-') :
    rust_len s = s.length := by
  induction s with
  | nil => rfl
  | cons c t ih =>
    have hc := char_utf8_len_allowed c (h c (List.mem_cons_self _ _))
    have ht := ih (fun d hd => h d (List.mem_cons_of_mem _ hd))
    simp only [rust_len, List.map_cons, List.sum_cons, List.length_cons] at *
    omega

theorem slug_all_iff (s : List Char) :
    (s.all fun c => is_ascii_lowercase c || is_ascii_digit c || c == '-') = true ↔
    (∀ c ∈ s, is_ascii_lowercase c = true ∨ is_ascii_digit c = true ∨ c = '-') := by
  rw [List.all_eq_true]
  constructor
  · intro h c hc
    have h2 := h c hc
    simp only [Bool.or_eq_true, beq_iff_eq] at h2
    tauto
  · intro h c hc
    have h2 := h c hc
    simp only [Bool.or_eq_true, beq_iff_eq]
    tauto

/-- Claim C8: slug construction accepts exactly the nonempty strings of at
most 64 characters over lowercase ASCII letters, digits and hyphen with no
boundary hyphen, and reports errors in the fixed order: empty first, then
over-length (with the offending byte length), then invalid characters, then
boundary hyphen. -/
theorem claim_C8 :
    (∀ s : List Char, Slug.new s = Except.ok s ↔
      (1 ≤ s.length ∧ s.length ≤ 64 ∧
       (∀ c ∈ s, is_ascii_lowercase c = true ∨ is_ascii_digit c = true ∨ c = '-') ∧
       s.head? ≠ some '-' ∧ s.getLast? ≠ some '-')) ∧
    (Slug.new [] = Except.error SlugError.Empty) ∧
    (∀ s : List Char, s ≠ [] → 64 < rust_len s →
      Slug.new s = Except.error (SlugError.TooLong (rust_len s))) ∧
    (∀ s : List Char, s ≠ [] → rust_len s ≤ 64 →
      (∃ c ∈ s, ¬(is_ascii_lowercase c = true ∨ is_ascii_digit c = true ∨ c = '-')) →
      Slug.new s = Except.error SlugError.InvalidCharacters) ∧
    (∀ s : List Char, s ≠ [] → rust_len s ≤ 64 →
      (∀ c ∈ s, is_ascii_lowercase c = true ∨ is_ascii_digit c = true ∨ c = '-') →
      (s.head? = some '-' ∨ s.getLast? = some '-') →
      Slug.new s = Except.error SlugError.InvalidHyphenPosition) := by
  refine ⟨?_, rfl, ?_, ?_, ?_⟩
  · intro s
    constructor
    · intro h
      unfold Slug.new at h
      split_ifs at h with h1 h2 h3 h4
      have hne : s ≠ [] := by
        intro e
        subst e
        exact h1 rfl
      have hA := (slug_all_iff s).mp (Bool.not_eq_false _ |>.mp h3)
      have hlen := rust_len_allowed s hA
      have h2' : rust_len s ≤ 64 := by
        unfold MAX_SLUG_LENGTH at h2
        omega
      refine ⟨List.length_pos.mpr hne, by omega, hA, ?_, ?_⟩
      · exact fun hh => h4 (Or.inl hh)
      · exact fun hl => h4 (Or.inr hl)
    · rintro ⟨h1, h2, hA, h4, h5⟩
      have hne : s ≠ [] := by
        intro e
        subst e
        simp at h1
      have hlen := rust_len_allowed s hA
      have e1 : s.isEmpty = false := by
        cases s with
        | nil => exact absurd rfl hne
        | cons a t => rfl
      have e2 : ¬(MAX_SLUG_LENGTH < rust_len s) := by
        unfold MAX_SLUG_LENGTH
        omega
      have e3 := (slug_all_iff s).mpr hA
      have e4 : ¬(s.head? = some '-' ∨ s.getLast? = some '-') :=
        fun hc => hc.elim h4 h5
      simp [Slug.new, e1, e2, e3, e4]
  · intro s hne hlen
    have e1 : s.isEmpty = false := by
      cases s with
      | nil => exact absurd rfl hne
      | cons a t => rfl
    have e2 : MAX_SLUG_LENGTH < rust_len s := by
      unfold MAX_SLUG_LENGTH
      omega
    simp [Slug.new, e1, e2]
  · intro s hne hlen hbad
    have e1 : s.isEmpty = false := by
      cases s with
      | nil => exact absurd rfl hne
      | cons a t => rfl
    have e2 : ¬(MAX_SLUG_LENGTH < rust_len s) := by
      unfold MAX_SLUG_LENGTH
      omega
    have e3 : (s.all fun c => is_ascii_lowercase c || is_ascii_digit c || c == '-') = false := by
      rw [Bool.eq_false_iff]
      intro hAll
      obtain ⟨c, hc, hcbad⟩ := hbad
      exact hcbad ((slug_all_iff s).mp hAll c hc)
    simp [Slug.new, e1, e2, e3]
  · intro s hne hlen hA hhyp
    have e1 : s.isEmpty = false := by
      cases s with
      | nil => exact absurd rfl hne
      | cons a t => rfl
    have e2 : ¬(MAX_SLUG_LENGTH < rust_len s) := by
      unfold MAX_SLUG_LENGTH
      omega
    have e3 := (slug_all_iff s).mpr hA
    simp [Slug.new, e1, e2, e3, hhyp]

/-- Witness for C8: a valid slug is accepted, a 65-character one is
rejected as too long. -/
theorem claim_C8_witness :
    Slug.new ['a', 'b'] = Except.ok ['a', 'b'] ∧
    Slug.new (List.replicate 65 'a') = Except.error (SlugError.TooLong 65) :=
  ⟨(claim_C8.1 ['a', 'b']).mpr (by decide),
   (by decide : rust_len (List.replicate 65 'a') = 65) ▸
     claim_C8.2.2.1 (List.replicate 65 'a') (by decide) (by decide)⟩

/-- A non-paused overdue monitor whose step writes value `v` at its own slug
(independently of the store it runs on) ends the whole cycle with `v` stored
at its slug, provided the overdue slugs are pairwise distinct. -/
theorem check_store_overdue_write (send : Sink) (now : Int)
    (overdue alerted : List Monitor) (st : AlertStore) (m : Monitor)
    (v : Option Int × Option Nat) (hm : m ∈ overdue)
    (hnd : (overdue.map Monitor.slug).Nodup)
    (hnp : MonitorStatus.derive m now ≠ MonitorStatus.Paused)
    (hw : ∀ σ, (processOverdueMonitor send now m σ).1 m.slug = v) :
    (check_monitors send now overdue alerted st).1 m.slug = v := by
  unfold check_monitors
  dsimp only
  have hmem : m.slug ∈ (overduePass send now overdue [] st).1 :=
    overduePass_slug_mem send now overdue [] st m hm hnp
  rw [recoveryPass_store_frame_mem send now _ alerted _ m.slug hmem]
  apply overduePass_store_write send now overdue [] st m.slug v m hm hnp hw
  intro m2 hm2
  by_cases he : m2 = m
  · subst he
    exact Or.inr (Or.inr hw)
  · refine Or.inr (Or.inl fun σ => ?_)
    exact processOverdueMonitor_store_frame send now m2 σ m.slug
      (fun hss => he (List.inj_on_of_nodup_map hnd hm2 hm hss.symm))

/-- Claim C2 (amended): a successfully delivered first alert stores
`last_alerted_at = now` and `alert_count =` stored `alert_count` (absent
read as 0) `+ 1` for the monitor, which is 1 whenever the stored
`alert_count` is absent. -/
theorem claim_C2 (send : Sink) (now : Int) (overdue alerted : List Monitor)
    (st : AlertStore) (m : Monitor) (hm : m ∈ overdue)
    (hnd : (overdue.map Monitor.slug).Nodup)
    (hnp : MonitorStatus.derive m now ≠ MonitorStatus.Paused)
    (hla : m.last_alerted_at = none)
    (hsend : send (format_overdue m.slug m.interval_secs m.last_ping now) = true) :
    (check_monitors send now overdue alerted st).1 m.slug =
      (some now, some (m.alert_count.getD 0 + 1)) ∧
    (m.alert_count = none →
      (check_monitors send now overdue alerted st).1 m.slug = (some now, some 1)) := by
  have hw : ∀ σ, (processOverdueMonitor send now m σ).1 m.slug =
      (some now, some (m.alert_count.getD 0 + 1)) := by
    intro σ
    rw [processOverdueMonitor_first_ok send now m σ hla hsend]
    exact update_alert_state_at_slug σ m.slug now _
  have main := check_store_overdue_write send now overdue alerted st m _
    hm hnd hnp hw
  refine ⟨main, fun hac => ?_⟩
  rw [main, hac]
  rfl

/-- Counterexample to C2 as stated: a monitor with `last_alerted_at`
absent but a stale stored `alert_count = 5` gets `alert_count = 6`, not 1,
after a successfully delivered first alert. -/
theorem claim_C2_counterexample :
    (testMonitor "job" 1300 none (some 5) none).last_alerted_at = none ∧
    MonitorStatus.derive (testMonitor "job" 1300 none (some 5) none) 5000 =
      MonitorStatus.Overdue ∧
    (check_monitors (fun _ => true) 5000
      [testMonitor "job" 1300 none (some 5) none] [] emptyAlertStore).1 "job" =
      (some 5000, some 6) ∧
    (check_monitors (fun _ => true) 5000
      [testMonitor "job" 1300 none (some 5) none] [] emptyAlertStore).1 "job" ≠
      (some 5000, some 1) := by
  refine ⟨rfl, rfl, by decide, by decide⟩

/-- Witness for C2 at a concrete cycle with no stored alert count. -/
theorem claim_C2_witness :
    (check_monitors (fun _ => true) 5000
      [testMonitor "w2" 1300 none none none] [] emptyAlertStore).1 "w2" =
      (some 5000, some 1) :=
  (claim_C2 (fun _ => true) 5000 [testMonitor "w2" 1300 none none none] []
    emptyAlertStore (testMonitor "w2" 1300 none none none)
    (List.mem_singleton.mpr rfl) (by simp) (by decide) rfl rfl).2 rfl

/-- Claim C3: with a prior alert, a repeat message (whose downtime operand
is `max 0 (now - next_due)`) is attempted exactly when
`now - last_alerted_at ≥ 3600`; on successful delivery the cycle stores
`last_alerted_at = now` and `alert_count + 1`; below the threshold the
monitor's step does nothing and its stored state survives the cycle. -/
theorem claim_C3 :
    (∀ (send : Sink) (now : Int) (m : Monitor) (st : AlertStore) (la : Int),
      m.last_alerted_at = some la → 3600 ≤ now - la →
      (processOverdueMonitor send now m st).2 =
        [format_repeat m.slug (max (now - m.next_due) 0).toNat]) ∧
    (∀ (send : Sink) (now : Int) (m : Monitor) (st : AlertStore) (la : Int),
      m.last_alerted_at = some la → now - la < 3600 →
      processOverdueMonitor send now m st = (st, [])) ∧
    (∀ (send : Sink) (now : Int) (overdue alerted : List Monitor)
        (st : AlertStore) (m : Monitor) (la : Int) (c : Nat),
      m ∈ overdue → (overdue.map Monitor.slug).Nodup →
      MonitorStatus.derive m now ≠ MonitorStatus.Paused →
      m.last_alerted_at = some la → m.alert_count = some c →
      3600 ≤ now - la →
      send (format_repeat m.slug (max (now - m.next_due) 0).toNat) = true →
      (check_monitors send now overdue alerted st).1 m.slug =
        (some now, some (c + 1))) ∧
    (∀ (send : Sink) (now : Int) (overdue alerted : List Monitor)
        (st : AlertStore) (m : Monitor) (la : Int),
      m ∈ overdue → (overdue.map Monitor.slug).Nodup →
      MonitorStatus.derive m now ≠ MonitorStatus.Paused →
      m.last_alerted_at = some la → now - la < 3600 →
      (check_monitors send now overdue alerted st).1 m.slug = st m.slug) := by
  refine ⟨?_, ?_, ?_, ?_⟩
  · intro send now m st la hla hrep
    rcases hsend : send (format_repeat m.slug (max (now - m.next_due) 0).toNat) with _ | _
    · rw [processOverdueMonitor_repeat_fail send now m st la hla hrep hsend]
    · rw [processOverdueMonitor_repeat_ok send now m st la hla hrep hsend]
  · intro send now m st la hla hrep
    exact processOverdueMonitor_repeat_skip send now m st la hla hrep
  · intro send now overdue alerted st m la c hm hnd hnp hla hac hrep hsend
    have hw : ∀ σ, (processOverdueMonitor send now m σ).1 m.slug =
        (some now, some (c + 1)) := by
      intro σ
      rw [processOverdueMonitor_repeat_ok send now m σ la hla hrep hsend, hac]
      exact update_alert_state_at_slug σ m.slug now (c + 1)
    exact check_store_overdue_write send now overdue alerted st m _ hm hnd hnp hw
  · intro send now overdue alerted st m la hm hnd hnp hla hrep
    unfold check_monitors
    dsimp only
    have hmem : m.slug ∈ (overduePass send now overdue [] st).1 :=
      overduePass_slug_mem send now overdue [] st m hm hnp
    rw [recoveryPass_store_frame_mem send now _ alerted _ m.slug hmem]
    apply overduePass_store_keepval send now overdue [] st m.slug (st m.slug) _ rfl
    intro m2 hm2
    by_cases he : m2 = m
    · subst he
      refine Or.inr (Or.inl fun σ => ?_)
      rw [processOverdueMonitor_repeat_skip send now m2 σ la hla hrep]
    · refine Or.inr (Or.inl fun σ => ?_)
      exact processOverdueMonitor_store_frame send now m2 σ m.slug
        (fun hss => he (List.inj_on_of_nodup_map hnd hm2 hm hss.symm))

/-- Witness for C3: a repeat fires at exactly one hour and bumps the count;
one second earlier nothing happens. -/
theorem claim_C3_witness :
    (check_monitors (fun _ => true) 4600
      [testMonitor "w3" 1300 (some 1000) (some 2) none] [] emptyAlertStore).1 "w3" =
      (some 4600, some 3) ∧
    processOverdueMonitor (fun _ => true) 4599
      (testMonitor "w3" 1300 (some 1000) (some 2) none) emptyAlertStore =
      (emptyAlertStore, []) :=
  ⟨claim_C3.2.2.1 (fun _ => true) 4600 [testMonitor "w3" 1300 (some 1000) (some 2) none]
    [] emptyAlertStore (testMonitor "w3" 1300 (some 1000) (some 2) none) 1000 2
    (List.mem_singleton.mpr rfl) (by simp) (by decide) rfl rfl (by norm_num) rfl,
   claim_C3.2.1 (fun _ => true) 4599 (testMonitor "w3" 1300 (some 1000) (some 2) none)
    emptyAlertStore 1000 rfl (by norm_num)⟩

/-- Claim C4: an alerted monitor whose slug was not marked overdue and which
is not paused has a recovery message with downtime
`max 0 (now - last_alerted_at)` attempted, and on successful delivery both
stored alert fields are removed. -/
theorem claim_C4 (send : Sink) (now : Int) (overdue alerted : List Monitor)
    (st : AlertStore) (m : Monitor) (la : Int) (hm : m ∈ alerted)
    (hnd : (alerted.map Monitor.slug).Nodup)
    (hns : m.slug ∉ (overduePass send now overdue [] st).1)
    (hnp : MonitorStatus.derive m now ≠ MonitorStatus.Paused)
    (hla : m.last_alerted_at = some la)
    (hsend : send (format_recovery m.slug (max (now - la) 0).toNat) = true) :
    format_recovery m.slug (max (now - la) 0).toNat ∈
      (check_monitors send now overdue alerted st).2 ∧
    (check_monitors send now overdue alerted st).1 m.slug = (none, none) := by
  unfold check_monitors
  dsimp only
  constructor
  · exact List.mem_append_right _
      (recoveryPass_sent_mem send now _ alerted _ m la hm hns hnp hla)
  · apply recoveryPass_store_write send now _ alerted _ m.slug (none, none) m hm
    · intro σ
      rw [processAlertedMonitor_recover_ok send now _ m σ la hns hnp hla hsend]
      exact clear_alert_state_at_slug σ m.slug
    · intro m2 hm2
      by_cases he : m2 = m
      · subst he
        refine Or.inr fun σ => ?_
        rw [processAlertedMonitor_recover_ok send now _ m2 σ la hns hnp hla hsend]
        exact clear_alert_state_at_slug σ m2.slug
      · refine Or.inl fun σ => ?_
        exact processAlertedMonitor_store_frame send now _ m2 σ m.slug
          (fun hss => he (List.inj_on_of_nodup_map hnd hm2 hm hss.symm))

/-- Witness for C4 at a concrete recovered monitor. -/
theorem claim_C4_witness :
    (check_monitors (fun _ => true) 5000 []
      [testMonitor "w4" 9999 (some 2000) (some 3) none] emptyAlertStore).1 "w4" =
      (none, none) :=
  (claim_C4 (fun _ => true) 5000 [] [testMonitor "w4" 9999 (some 2000) (some 3) none]
    emptyAlertStore (testMonitor "w4" 9999 (some 2000) (some 3) none) 2000
    (List.mem_singleton.mpr rfl) (by simp) (by simp [overduePass]) (by decide)
    rfl rfl).2

end Heartbeat
